import Mathlib

/-!
Shallow embedding of the user CRUD data-access layer of
`mongodb-developer/graphql-typescript-example`.

The embedded source files are:
* `src/database/userService.ts` — the `UserService` class (`toUser`,
  `getAllUsers`, `getUserById`, `createUser`, `updateUser`, `deleteUser`);
* `src/database/connection.ts` — module-level connection state
  (`connectToDatabase`, `getDatabase`).

The MongoDB collection is modelled as a list of `UserDocument`s together
with a counter for driver-generated ObjectIds.  The collection is assumed
to carry the unique index on `email` that `createIndexes` establishes at
startup, so `insertOne` and `findOneAndUpdate` reject writes that would
duplicate an email (MongoDB error E11000), and `findOneAndUpdate` rejects
an update whose `$set` document is empty (MongoDB refuses empty update
operators).  JavaScript `Date` values are modelled as milliseconds since
the Unix epoch (a `Nat`), and `Date.prototype.toISOString` is implemented
as `dateToISOString` below.
-/

namespace GraphqlTs

/-! ## ObjectId: the store's identifier type -/

/-- A MongoDB ObjectId, carried by its 24-character hexadecimal form. -/
structure ObjectId where
  hex : String
deriving DecidableEq, Repr

/-- `ObjectId.prototype.toString()`: the canonical string form. -/
def ObjectId.str (o : ObjectId) : String := o.hex

/-- Is `c` a hexadecimal digit (either case)? -/
def isHexDigit (c : Char) : Bool :=
  c.isDigit || ('a' ≤ c && c ≤ 'f') || ('A' ≤ c && c ≤ 'F')

/-- `new ObjectId(s)` succeeds exactly on 24-character hex strings;
a malformed input makes the constructor throw, here `none`. -/
def parseObjectId (s : String) : Option ObjectId :=
  if s.length = 24 && s.toList.all isHexDigit then some ⟨s⟩ else none

/-- The `n % 16`-th lowercase hexadecimal digit. -/
def hexChar (n : Nat) : Char :=
  if n % 16 < 10 then Char.ofNat (48 + n % 16) else Char.ofNat (87 + n % 16)

/-- Big-endian list of `k` hexadecimal digits of `n`. -/
def hexDigits : Nat → Nat → List Char
  | 0, _ => []
  | k + 1, n => hexDigits k (n / 16) ++ [hexChar n]

/-- The `n`-th ObjectId generated by the driver: `n` zero-padded to 24
hexadecimal digits. -/
def genId (n : Nat) : ObjectId := ⟨⟨hexDigits 24 n⟩⟩

/-! ## Date: milliseconds since the Unix epoch -/

/-- Zero-pad a numeral to two digits. -/
def pad2 (n : Nat) : String := if n < 10 then "0" ++ toString n else toString n

/-- Zero-pad a numeral to three digits. -/
def pad3 (n : Nat) : String :=
  if n < 10 then "00" ++ toString n
  else if n < 100 then "0" ++ toString n else toString n

/-- Zero-pad a numeral to four digits. -/
def pad4 (n : Nat) : String :=
  if n < 10 then "000" ++ toString n
  else if n < 100 then "00" ++ toString n
  else if n < 1000 then "0" ++ toString n else toString n

/-- Convert a count of days since 1970-01-01 to a proleptic-Gregorian
`(year, month, day)` triple (the standard civil-from-days algorithm,
restricted to dates at or after the epoch). -/
def civilFromDays (z : Nat) : Nat × Nat × Nat :=
  let z := z + 719468
  let era := z / 146097
  let doe := z % 146097
  let yoe := (doe - doe / 1460 + doe / 36524 - doe / 146096) / 365
  let y := yoe + era * 400
  let doy := doe - (365 * yoe + yoe / 4 - yoe / 100)
  let mp := (5 * doy + 2) / 153
  let d := doy - (153 * mp + 2) / 5 + 1
  let m := if mp < 10 then mp + 3 else mp - 9
  (if m ≤ 2 then y + 1 else y, m, d)

/-- `Date.prototype.toISOString()` for a timestamp of `ms` milliseconds
since the epoch: `YYYY-MM-DDTHH:MM:SS.mmmZ`. -/
def dateToISOString (ms : Nat) : String :=
  let days := ms / 86400000
  let rest := ms % 86400000
  let c := civilFromDays days
  pad4 c.1 ++ "-" ++ pad2 c.2.1 ++ "-" ++ pad2 c.2.2 ++ "T" ++
    pad2 (rest / 3600000) ++ ":" ++ pad2 (rest % 3600000 / 60000) ++ ":" ++
    pad2 (rest % 60000 / 1000) ++ "." ++ pad3 (rest % 1000) ++ "Z"

/-! ## The data model (`src/types/index.ts` and the `UserDocument`
interface of `src/database/userService.ts`) -/

/-- The GraphQL `User` type: `id` and `createdAt` are strings, `age` is
optional. -/
structure User where
  id : String
  name : String
  email : String
  age : Option Int
  createdAt : String
deriving DecidableEq, Repr

/-- `CreateUserInput`: `age` optional. -/
structure CreateUserInput where
  name : String
  email : String
  age : Option Int
deriving DecidableEq, Repr

/-- `UpdateUserInput`: all of `name`, `email`, `age` optional. -/
structure UpdateUserInput where
  id : String
  name : Option String
  email : Option String
  age : Option Int
deriving DecidableEq, Repr

/-- The persisted MongoDB document (`UserDocument`): native `_id` and
native `Date`-valued `createdAt`. -/
structure UserDocument where
  _id : ObjectId
  name : String
  email : String
  age : Option Int
  createdAt : Nat
deriving DecidableEq, Repr

/-- A `UserDocument` before the driver assigns its `_id`
(`Omit<UserDocument, '_id'>`). -/
structure NewUserDocument where
  name : String
  email : String
  age : Option Int
  createdAt : Nat
deriving DecidableEq, Repr

/-! ## The modelled collection and its operations -/

/-- An error surfaced by a store operation. -/
inductive DbError where
  /-- E11000: a write would duplicate a value of the unique `email` index. -/
  | duplicateKey : DbError
  /-- MongoDB rejects an update whose update-operator document is empty. -/
  | emptyUpdate : DbError
  /-- A thrown `Error(message)`. -/
  | internal : String → DbError
deriving DecidableEq, Repr

/-- The `users` collection: its documents in store order, and the counter
from which the driver mints the next generated ObjectId. -/
structure UsersCollection where
  docs : List UserDocument
  nextId : Nat
deriving DecidableEq, Repr

/-- `collection.findOne({_id})`: the first document with the given id. -/
def findOne (s : UsersCollection) (oid : ObjectId) : Option UserDocument :=
  s.docs.find? (fun d => d._id = oid)

/-- `collection.insertOne(doc)`: mint a fresh `_id`, reject a duplicate
`email` (unique index), otherwise append the document. The `age` field
is carried at the JavaScript level (`Option Int`, conflating the two
nullish values); the BSON-level form the driver actually persists —
where an undefined `age` becomes BSON `null` under the default
`ignoreUndefined: false` — is `serializeDoc` below. -/
def insertOne (s : UsersCollection) (doc : NewUserDocument) :
    Except DbError (ObjectId × UsersCollection) :=
  if s.docs.any (fun d => d.email = doc.email) then
    .error .duplicateKey
  else
    let oid := genId s.nextId
    .ok (oid, ⟨s.docs ++ [{ _id := oid, name := doc.name, email := doc.email,
                            age := doc.age, createdAt := doc.createdAt }],
               s.nextId + 1⟩)

/-- The partial `$set` document built by `updateUser`: only the fields
present are written. -/
structure UpdateFields where
  name : Option String
  email : Option String
  age : Option Int
deriving DecidableEq, Repr

/-- Is the `$set` document empty? -/
def UpdateFields.isEmpty (f : UpdateFields) : Bool :=
  f.name.isNone && f.email.isNone && f.age.isNone

/-- Apply a `$set` document to one document: present fields are
overwritten, absent fields (and `_id`, `createdAt`) are untouched. -/
def applySet (d : UserDocument) (f : UpdateFields) : UserDocument :=
  { d with name := f.name.getD d.name,
           email := f.email.getD d.email,
           age := f.age.or d.age }

/-- Replace the first document with the given `_id` by its `$set` image. -/
def setFirst : List UserDocument → ObjectId → UpdateFields → List UserDocument
  | [], _, _ => []
  | d :: ds, oid, f =>
      if d._id = oid then applySet d f :: ds else d :: setFirst ds oid f

/-- `collection.findOneAndUpdate({_id}, {$set}, {returnDocument:'after'})`:
rejects an empty `$set`; returns `none` when no document matches; rejects
a `$set` whose resulting `email` duplicates another document's (unique
index); otherwise updates the first match and returns the post-update
document. -/
def findOneAndUpdate (s : UsersCollection) (oid : ObjectId) (f : UpdateFields) :
    Except DbError (Option UserDocument × UsersCollection) :=
  if f.isEmpty then .error .emptyUpdate
  else
    match s.docs.find? (fun d => d._id = oid) with
    | none => .ok (none, s)
    | some doc =>
        let updated := applySet doc f
        if s.docs.any (fun d => d._id ≠ oid && d.email = updated.email) then
          .error .duplicateKey
        else
          .ok (some updated, { s with docs := setFirst s.docs oid f })

/-- Remove the first document with the given `_id`. -/
def eraseFirst : List UserDocument → ObjectId → List UserDocument
  | [], _ => []
  | d :: ds, oid => if d._id = oid then ds else d :: eraseFirst ds oid

/-- `collection.deleteOne({_id})`: the deleted count (0 or 1) and the
remaining collection. -/
def deleteOne (s : UsersCollection) (oid : ObjectId) : Nat × UsersCollection :=
  match s.docs.find? (fun d => d._id = oid) with
  | none => (0, s)
  | some _ => (1, { s with docs := eraseFirst s.docs oid })

/-! ## `UserService` (`src/database/userService.ts`) -/

/-- `UserService.toUser`: stringify `_id`, ISO-format `createdAt`, pass
`name`, `email`, `age` through. -/
def toUser (doc : UserDocument) : User :=
  { id := doc._id.str,
    name := doc.name,
    email := doc.email,
    age := doc.age,
    createdAt := dateToISOString doc.createdAt }

/-- `UserService.getAllUsers`: every document, codec-translated. -/
def getAllUsers (s : UsersCollection) : List User :=
  s.docs.map toUser

/-- `UserService.getUserById`: `new ObjectId(id)` throwing is caught and
normalised to `null`; a missing document is also `null`. -/
def getUserById (s : UsersCollection) (id : String) : Option User :=
  match parseObjectId id with
  | none => none
  | some oid => (findOne s oid).map toUser

/-- The tail of `UserService.createUser` after the post-insert re-read:
a `null` re-read throws `Error('Failed to create user')`, otherwise the
re-read document is codec-translated. -/
def finishCreate (s : UsersCollection) (reread : Option UserDocument) :
    Except DbError User × UsersCollection :=
  match reread with
  | some doc => (.ok (toUser doc), s)
  | none => (.error (.internal "Failed to create user"), s)

/-- `UserService.createUser` at time `now` (`new Date()`): build the
document with `createdAt := now`, insert it (no try/catch: an insert
error propagates), re-read it by the assigned id and finish. -/
def createUser (s : UsersCollection) (input : CreateUserInput) (now : Nat) :
    Except DbError User × UsersCollection :=
  let newUser : NewUserDocument :=
    { name := input.name, email := input.email, age := input.age, createdAt := now }
  match insertOne s newUser with
  | .error e => (.error e, s)
  | .ok (insertedId, s1) => finishCreate s1 (findOne s1 insertedId)

/-- The `$set` document `updateUser` builds from its input. -/
def fieldsOf (input : UpdateUserInput) : UpdateFields :=
  { name := input.name, email := input.email, age := input.age }

/-- `UserService.updateUser`: the whole body sits in a `try` whose
`catch` returns `null`, so a throwing `new ObjectId(input.id)` and every
error of `findOneAndUpdate` alike become `null`. -/
def updateUser (s : UsersCollection) (input : UpdateUserInput) :
    Option User × UsersCollection :=
  match parseObjectId input.id with
  | none => (none, s)
  | some oid =>
      match findOneAndUpdate s oid (fieldsOf input) with
      | .error _ => (none, s)
      | .ok (res, s1) => (res.map toUser, s1)

/-- `UserService.deleteUser`: a throwing `new ObjectId(id)` is caught and
normalised to `false`; otherwise `true` iff `deletedCount > 0`. -/
def deleteUser (s : UsersCollection) (id : String) : Bool × UsersCollection :=
  match parseObjectId id with
  | none => (false, s)
  | some oid =>
      let r := deleteOne s oid
      (decide (r.1 > 0), r.2)

/-! ## Connection state (`src/database/connection.ts`) -/

/-- A live database handle, as obtained from `client.db(DB_NAME)`. -/
structure Db where
  uri : String
  name : String
deriving DecidableEq, Repr

/-- The module-level mutable state of `connection.ts`: `db` and `client`
(the client is represented by its connection string). -/
structure ConnState where
  db : Option Db
  client : Option String
deriving DecidableEq, Repr

/-- The relevant environment: `MONGODB_URI` and `DB_NAME`. -/
structure Env where
  mongodbUri : Option String
  dbName : Option String
deriving DecidableEq, Repr

/-- An error surfaced by the connection layer. -/
inductive ConnError where
  /-- `Error('MONGODB_URI is not set')`. -/
  | configError : ConnError
  /-- `Error('Database not initialized. Call connectToDatabase() first.')`. -/
  | notInitialized : ConnError
deriving DecidableEq, Repr

/-- `connectToDatabase`: return the existing handle if `db` is set;
otherwise throw when `MONGODB_URI` is unset, else connect and store the
handle (DB name defaulting to `graphql_example`). -/
def connectToDatabase (env : Env) (st : ConnState) :
    Except ConnError (Db × ConnState) :=
  match st.db with
  | some d => .ok (d, st)
  | none =>
      match env.mongodbUri with
      | none => .error .configError
      | some uri =>
          let d : Db := ⟨uri, env.dbName.getD "graphql_example"⟩
          .ok (d, ⟨some d, some uri⟩)

/-- `getDatabase`: throw when no handle is stored. -/
def getDatabase (st : ConnState) : Except ConnError Db :=
  match st.db with
  | none => .error .notInitialized
  | some d => .ok d

/-- The `UserService` constructor: it calls `getDatabase()` (which throws
when not connected) and keeps the `users` collection handle, here the
obtained `Db`. -/
def UserService.make (st : ConnState) : Except ConnError Db :=
  getDatabase st

/-- The document `createUser` builds and inserts, once the driver has
assigned the id `oid`. -/
def mkDoc (oid : ObjectId) (input : CreateUserInput) (now : Nat) : UserDocument :=
  ⟨oid, input.name, input.email, input.age, now⟩

/-! ## BSON serialization of the write path

`UserDocument.age : Option Int` models the JavaScript value of the `age`
property, conflating JavaScript's two nullish values. What actually
reaches disk is finer-grained: a BSON field is either missing from the
document, BSON `null`, or a number. `createUser` always materialises the
property (`age: input.age`), and the `MongoClient` is constructed with no
options, so the driver's default `ignoreUndefined: false` serializes an
`undefined` property value as BSON `null` — not as a missing field. -/

/-- The persisted state of the optional `age` field: missing from the
document, BSON `null`, or a number. -/
inductive BsonOptInt where
  | absent : BsonOptInt
  | null : BsonOptInt
  | value : Int → BsonOptInt
deriving DecidableEq, Repr

/-- The JavaScript value the driver deserializes the persisted `age`
field into: a missing field reads back as `undefined`, BSON `null` as
`null`, a number as a number. -/
inductive JsOptInt where
  | undef : JsOptInt
  | null : JsOptInt
  | num : Int → JsOptInt
deriving DecidableEq, Repr

/-- Driver serialization of the `age` property under the default
`ignoreUndefined: false`: the property is always present on the document
`createUser` builds, and an `undefined` value is written as BSON `null`. -/
def serializeAge (age : Option Int) : BsonOptInt :=
  match age with
  | none => .null
  | some n => .value n

/-- Driver deserialization of a persisted `age` field back into a
JavaScript value. -/
def deserializeAge : BsonOptInt → JsOptInt
  | .absent => .undef
  | .null => .null
  | .value n => .num n

/-- The persisted (BSON-level) form of a user document. -/
structure BsonUserDocument where
  _id : ObjectId
  name : String
  email : String
  age : BsonOptInt
  createdAt : Nat
deriving DecidableEq, Repr

/-- BSON serialization of the document `createUser` hands to
`insertOne`: `_id`, `name`, `email`, `createdAt` are always defined, and
`age` is serialized under the default `ignoreUndefined: false`. -/
def serializeDoc (d : UserDocument) : BsonUserDocument :=
  { _id := d._id, name := d.name, email := d.email,
    age := serializeAge d.age, createdAt := d.createdAt }

/-! ## Helper lemmas -/

theorem applySet_id (d : UserDocument) (f : UpdateFields) :
    (applySet d f)._id = d._id := rfl

theorem applySet_createdAt (d : UserDocument) (f : UpdateFields) :
    (applySet d f).createdAt = d.createdAt := rfl

theorem hexChar_lt (m : Nat) (h : m < 16) :
    isHexDigit (if m < 10 then Char.ofNat (48 + m) else Char.ofNat (87 + m)) = true := by
  interval_cases m <;> decide

theorem hexChar_isHexDigit (n : Nat) : isHexDigit (hexChar n) = true :=
  hexChar_lt (n % 16) (Nat.mod_lt _ (by norm_num))

theorem hexDigits_length (k n : Nat) : (hexDigits k n).length = k := by
  induction k generalizing n with
  | zero => rfl
  | succ k ih => simp [hexDigits, ih]

theorem hexDigits_all (k n : Nat) : (hexDigits k n).all isHexDigit = true := by
  induction k generalizing n with
  | zero => rfl
  | succ k ih => simp [hexDigits, List.all_append, ih, hexChar_isHexDigit]

/-- Driver-generated ObjectIds are valid inputs to the ObjectId
constructor, and parsing the string form recovers the id. -/
theorem parse_genId (n : Nat) : parseObjectId (genId n).str = some (genId n) := by
  have h1 : (genId n).str.length = 24 := hexDigits_length 24 n
  have h2 : (genId n).str.toList.all isHexDigit = true := hexDigits_all 24 n
  unfold parseObjectId
  rw [h1, h2]
  simp [genId, ObjectId.str]

/-- Removing a found document shortens the list by exactly one. -/
theorem eraseFirst_length (docs : List UserDocument) (oid : ObjectId)
    (doc : UserDocument) (h : docs.find? (fun d => d._id = oid) = some doc) :
    (eraseFirst docs oid).length + 1 = docs.length := by
  induction docs with
  | nil => simp at h
  | cons d ds ih =>
    by_cases hd : d._id = oid
    · simp [eraseFirst, hd]
    · rw [List.find?_cons_of_neg _ (by simp [hd])] at h
      have := ih h
      simp only [eraseFirst, if_neg hd, List.length_cons]
      omega

/-- With pairwise-distinct ids, no document with the erased id remains. -/
theorem eraseFirst_find_none (docs : List UserDocument) (oid : ObjectId)
    (hnd : (docs.map (fun d => d._id)).Nodup) :
    (eraseFirst docs oid).find? (fun d => d._id = oid) = none := by
  induction docs with
  | nil => rfl
  | cons d ds ih =>
    rw [List.map_cons, List.nodup_cons] at hnd
    by_cases hd : d._id = oid
    · simp only [eraseFirst, if_pos hd]
      refine List.find?_eq_none.mpr ?_
      intro e he
      simp only [decide_eq_true_eq]
      intro hoid
      exact hnd.1 (by rw [hd, ← hoid]; exact List.mem_map_of_mem _ he)
    · simp only [eraseFirst, if_neg hd]
      rw [List.find?_cons_of_neg _ (by simp [hd])]
      exact ih hnd.2

/-- After `setFirst`, looking the id up again finds the `$set` image of
the first previously matching document. -/
theorem setFirst_find (docs : List UserDocument) (oid : ObjectId) (f : UpdateFields)
    (doc : UserDocument) (h : docs.find? (fun d => d._id = oid) = some doc) :
    (setFirst docs oid f).find? (fun d => d._id = oid) = some (applySet doc f) := by
  induction docs with
  | nil => simp at h
  | cons d ds ih =>
    by_cases hd : d._id = oid
    · rw [List.find?_cons_of_pos _ (by simp [hd])] at h
      injection h with h
      subst h
      simp only [setFirst, if_pos hd]
      exact List.find?_cons_of_pos _ (by simp [applySet_id, hd])
    · rw [List.find?_cons_of_neg _ (by simp [hd])] at h
      simp only [setFirst, if_neg hd]
      rw [List.find?_cons_of_neg _ (by simp [hd])]
      exact ih h

/-- Looking up a freshly appended document by its id finds it, provided
no earlier document carries that id. -/
theorem findOne_append_fresh (docs : List UserDocument) (doc : UserDocument)
    (oid : ObjectId) (k : Nat) (hoid : doc._id = oid)
    (hfresh : ∀ d ∈ docs, d._id ≠ oid) :
    findOne ⟨docs ++ [doc], k⟩ oid = some doc := by
  unfold findOne
  rw [List.find?_append, List.find?_eq_none.mpr (by intro d hd; simp [hfresh d hd])]
  simp [hoid]

/-- The create path in full: with no email collision and a fresh
generated id, `createUser` appends exactly the document built from the
input at time `now` and returns its codec translation. -/
theorem createUser_eq (s : UsersCollection) (input : CreateUserInput) (now : Nat)
    (hemail : ∀ d ∈ s.docs, d.email ≠ input.email)
    (hfresh : ∀ d ∈ s.docs, d._id ≠ genId s.nextId) :
    createUser s input now =
      (.ok (toUser (mkDoc (genId s.nextId) input now)),
       ⟨s.docs ++ [mkDoc (genId s.nextId) input now], s.nextId + 1⟩) := by
  have hne : ¬ ∃ x ∈ s.docs, x.email = input.email := by
    rintro ⟨x, hx, he⟩
    exact hemail x hx he
  have hfind := findOne_append_fresh s.docs (mkDoc (genId s.nextId) input now)
    (genId s.nextId) (s.nextId + 1) rfl hfresh
  simp [createUser, insertOne, finishCreate, mkDoc, hne, hfind] at hfind ⊢

/-! ## Sample data for witnesses and counterexamples -/

/-- A stored record for Alice. -/
def aliceDoc : UserDocument :=
  { _id := genId 0, name := "Alice", email := "alice@example.com",
    age := some 25, createdAt := 0 }

/-- A stored record for Bob, with a distinct id and email. -/
def bobDoc : UserDocument :=
  { _id := genId 1, name := "Bob", email := "bob@example.com",
    age := none, createdAt := 1000 }

/-- A collection holding Alice and Bob. -/
def twoUsers : UsersCollection := ⟨[aliceDoc, bobDoc], 2⟩

/-- A collection holding only Alice. -/
def oneUser : UsersCollection := ⟨[aliceDoc], 1⟩

/-- The empty collection. -/
def emptyUsers : UsersCollection := ⟨[], 0⟩

/-! ## Claims -/

/-- C6: `toUser` stringifies the record's identifier into `id`, formats
the native timestamp as its ISO-8601 string into `createdAt`, and passes
`name`, `email` and `age` through unchanged — in particular an absent
`age` (`none`, which in this model is distinct from `some 0` and from any
null sentinel) stays absent. -/
theorem C6_toUser_codec (doc : UserDocument) :
    (toUser doc).id = doc._id.str ∧
    (toUser doc).createdAt = dateToISOString doc.createdAt ∧
    (toUser doc).name = doc.name ∧
    (toUser doc).email = doc.email ∧
    (toUser doc).age = doc.age :=
  ⟨rfl, rfl, rfl, rfl, rfl⟩

/-- C2: on an id string the ObjectId constructor rejects, `getUserById`
returns `null`, `updateUser` returns `null`, and `deleteUser` returns
`false`; all three leave the collection untouched, and their return types
carry no error at all, so no error can propagate. -/
theorem C2_malformed_id_absent (s : UsersCollection) (id : String)
    (nm : Option String) (em : Option String) (ag : Option Int)
    (hid : parseObjectId id = none) :
    getUserById s id = none ∧
    updateUser s ⟨id, nm, em, ag⟩ = (none, s) ∧
    deleteUser s id = (false, s) := by
  refine ⟨?_, ?_, ?_⟩ <;> simp [getUserById, updateUser, deleteUser, hid]

/-- C2 witness: the three operations at a concrete malformed id. -/
theorem C2_malformed_id_absent_witness :
    getUserById oneUser "not-an-objectid" = none ∧
    updateUser oneUser ⟨"not-an-objectid", some "X", none, none⟩ = (none, oneUser) ∧
    deleteUser oneUser "not-an-objectid" = (false, oneUser) :=
  C2_malformed_id_absent oneUser "not-an-objectid" (some "X") none none (by decide)

/-- C9: `connectToDatabase` is idempotent — with a handle already stored
it returns that same handle and leaves the state unchanged (no
reconnection); with no handle and no `MONGODB_URI` it fails with the
configuration error. `getDatabase` fails with the not-initialized error
whenever no handle is stored, and the `UserService` constructor, which
calls `getDatabase`, therefore fails fast in that situation. -/
theorem C9_connection_lifecycle (env env1 : Env) (st st1 : ConnState) (d : Db)
    (hconn : st.db = some d)
    (hnouri : env1.mongodbUri = none)
    (hnodb : st1.db = none) :
    connectToDatabase env st = .ok (d, st) ∧
    connectToDatabase env1 st1 = .error .configError ∧
    getDatabase st1 = .error .notInitialized ∧
    UserService.make st1 = .error .notInitialized := by
  refine ⟨?_, ?_, ?_, ?_⟩ <;>
    simp [connectToDatabase, getDatabase, UserService.make, hconn, hnouri, hnodb]

/-- C9 witness: a connected state returns its stored handle unchanged; a
fresh state with no connection string fails; `getDatabase` and the
service constructor fail on the fresh state. -/
theorem C9_connection_lifecycle_witness :
    connectToDatabase ⟨some "mongodb://h", some "appdb"⟩
        ⟨some ⟨"mongodb://h", "appdb"⟩, some "mongodb://h"⟩ =
      .ok (⟨"mongodb://h", "appdb"⟩, ⟨some ⟨"mongodb://h", "appdb"⟩, some "mongodb://h"⟩) ∧
    connectToDatabase ⟨none, none⟩ ⟨none, none⟩ = .error .configError ∧
    getDatabase ⟨none, none⟩ = .error .notInitialized ∧
    UserService.make ⟨none, none⟩ = .error .notInitialized :=
  C9_connection_lifecycle ⟨some "mongodb://h", some "appdb"⟩ ⟨none, none⟩
    ⟨some ⟨"mongodb://h", "appdb"⟩, some "mongodb://h"⟩ ⟨none, none⟩
    ⟨"mongodb://h", "appdb"⟩ rfl rfl rfl

/-- C10: when the id parses but `name`, `email` and `age` are all
omitted, `updateUser` sends an empty `$set`; the store rejects it, the
`catch` swallows the rejection, and the call returns `null` with the
collection untouched — even though a record matching the id exists. -/
theorem C10_empty_update_absent (s : UsersCollection) (input : UpdateUserInput)
    (oid : ObjectId)
    (hid : parseObjectId input.id = some oid)
    (hname : input.name = none) (hemail : input.email = none) (hage : input.age = none)
    (_hmatch : (s.docs.find? (fun d => d._id = oid)).isSome = true) :
    findOneAndUpdate s oid (fieldsOf input) = .error .emptyUpdate ∧
    updateUser s input = (none, s) := by
  have hempty : (fieldsOf input).isEmpty = true := by
    simp [fieldsOf, UpdateFields.isEmpty, hname, hemail, hage]
  have h1 : findOneAndUpdate s oid (fieldsOf input) = .error .emptyUpdate := by
    simp [findOneAndUpdate, hempty]
  refine ⟨h1, ?_⟩
  simp [updateUser, hid, h1]

/-- C10 witness: an update of Alice's id with no fields supplied returns
`null` although Alice's record exists, and the store rejected the empty
`$set`. -/
theorem C10_empty_update_absent_witness :
    findOneAndUpdate oneUser (genId 0) (fieldsOf ⟨(genId 0).str, none, none, none⟩) =
      .error .emptyUpdate ∧
    updateUser oneUser ⟨(genId 0).str, none, none, none⟩ = (none, oneUser) :=
  C10_empty_update_absent oneUser ⟨(genId 0).str, none, none, none⟩ (genId 0)
    (parse_genId 0) rfl rfl rfl (by decide)

/-- C1: the claim fails on the code. `updateUser`'s `try`/`catch` returns
`null` on every thrown error, so when the new `email` collides with
another record's (the unique index raises a duplicate-key error) the
violation is NOT propagated: at this concrete input the store operation
fails with `duplicateKey`, yet `updateUser` returns `null` — exactly the
"absent" result the claim rules out — leaving the collection unchanged. -/
theorem C1_update_swallows_duplicate_email :
    findOneAndUpdate twoUsers (genId 1)
        (fieldsOf ⟨(genId 1).str, none, some "alice@example.com", none⟩) =
      .error .duplicateKey ∧
    updateUser twoUsers ⟨(genId 1).str, none, some "alice@example.com", none⟩ =
      (none, twoUsers) := by
  constructor <;> rfl

/-- C5: `deleteUser` returns `false` on an id the ObjectId constructor
rejects, leaving the collection untouched; on any input it returns `true`
exactly when one record was removed (the collection shrank by one); and
once a delete has succeeded, deleting the same id again (ids being
pairwise distinct, as driver-generated ids are) returns `false`. -/
theorem C5_deleteUser_spec (s s2 : UsersCollection) (id id2 badId : String)
    (hnd : (s.docs.map (fun d => d._id)).Nodup)
    (hbad : parseObjectId badId = none)
    (hdel : (deleteUser s id).1 = true) :
    deleteUser s badId = (false, s) ∧
    ((deleteUser s2 id2).1 = true ↔
      (deleteUser s2 id2).2.docs.length + 1 = s2.docs.length) ∧
    (deleteUser (deleteUser s id).2 id).1 = false := by
  refine ⟨by simp [deleteUser, hbad], ?_, ?_⟩
  · cases hp : parseObjectId id2 with
    | none =>
        simp [deleteUser, hp]
    | some oid =>
        cases hf : s2.docs.find? (fun d => d._id = oid) with
        | none =>
            simp [deleteUser, deleteOne, hp, hf]
        | some doc =>
            simp [deleteUser, deleteOne, hp, hf]
            exact eraseFirst_length s2.docs oid doc hf
  · cases hp : parseObjectId id with
    | none => simp [deleteUser, hp] at hdel
    | some oid =>
        cases hf : s.docs.find? (fun d => d._id = oid) with
        | none => simp [deleteUser, deleteOne, hp, hf] at hdel
        | some doc =>
            have herased := eraseFirst_find_none s.docs oid hnd
            simp [deleteUser, deleteOne, hp, hf, herased]

/-- C5 witness: deleting Alice succeeds and shrinks the collection;
deleting the same id again returns `false`; a malformed id deletes
nothing. -/
theorem C5_deleteUser_spec_witness :
    deleteUser oneUser "nope" = (false, oneUser) ∧
    ((deleteUser oneUser (genId 0).str).1 = true ↔
      (deleteUser oneUser (genId 0).str).2.docs.length + 1 = oneUser.docs.length) ∧
    (deleteUser (deleteUser oneUser (genId 0).str).2 (genId 0).str).1 = false :=
  C5_deleteUser_spec oneUser oneUser (genId 0).str (genId 0).str "nope"
    (by decide) (by decide) (by decide)

/-- C3: when the id parses to `oid` and a record `doc` matches it, a
successful `updateUser` returns a User whose `name`, `email`, `age` are
the input's values where present and `doc`'s stored values where omitted,
whose `id` is still `doc`'s identifier and whose `createdAt` is still the
ISO form of `doc`'s creation time; the stored record, looked up again, is
`doc` with exactly those three fields rewritten — its `_id` and
`createdAt` fields are untouched — and the post-state is exactly
`setFirst` of the old documents, so every other record is unchanged. -/
theorem C3_updateUser_frame (s : UsersCollection) (input : UpdateUserInput)
    (oid : ObjectId) (doc : UserDocument) (u : User)
    (hid : parseObjectId input.id = some oid)
    (hfind : s.docs.find? (fun d => d._id = oid) = some doc)
    (hok : (updateUser s input).1 = some u) :
    u.name = input.name.getD doc.name ∧
    u.email = input.email.getD doc.email ∧
    u.age = input.age.or doc.age ∧
    u.id = doc._id.str ∧
    u.createdAt = dateToISOString doc.createdAt ∧
    (updateUser s input).2.docs.find? (fun d => d._id = oid) =
      some { doc with name := input.name.getD doc.name,
                      email := input.email.getD doc.email,
                      age := input.age.or doc.age } ∧
    (updateUser s input).2.docs = setFirst s.docs oid (fieldsOf input) := by
  cases hemp : (fieldsOf input).isEmpty with
  | true =>
      have : updateUser s input = (none, s) := by
        simp [updateUser, hid, findOneAndUpdate, hemp]
      rw [this] at hok
      simp at hok
  | false =>
      by_cases hdup : ∃ x ∈ s.docs, ¬x._id = oid ∧ x.email =
          (applySet doc (fieldsOf input)).email
      · have : updateUser s input = (none, s) := by
          simp [updateUser, hid, findOneAndUpdate, hemp, hfind, hdup]
        rw [this] at hok
        simp at hok
      · have hupd : updateUser s input =
            (some (toUser (applySet doc (fieldsOf input))),
             { s with docs := setFirst s.docs oid (fieldsOf input) }) := by
          simp [updateUser, hid, findOneAndUpdate, hemp, hfind, hdup]
        rw [hupd] at hok
        injection hok with hok
        subst hok
        rw [hupd]
        refine ⟨rfl, rfl, rfl, rfl, rfl, ?_, rfl⟩
        rw [setFirst_find s.docs oid (fieldsOf input) doc hfind]
        rfl

/-- C3 witness: updating only Alice's name leaves her email, age, id and
creation time as stored, and rewrites only her record. -/
theorem C3_updateUser_frame_witness :
    (toUser (applySet aliceDoc (fieldsOf ⟨(genId 0).str, some "Alicia", none, none⟩))).name =
      (some "Alicia").getD aliceDoc.name ∧
    (toUser (applySet aliceDoc (fieldsOf ⟨(genId 0).str, some "Alicia", none, none⟩))).email =
      (none : Option String).getD aliceDoc.email ∧
    (toUser (applySet aliceDoc (fieldsOf ⟨(genId 0).str, some "Alicia", none, none⟩))).age =
      (none : Option Int).or aliceDoc.age ∧
    (toUser (applySet aliceDoc (fieldsOf ⟨(genId 0).str, some "Alicia", none, none⟩))).id =
      aliceDoc._id.str ∧
    (toUser (applySet aliceDoc (fieldsOf ⟨(genId 0).str, some "Alicia", none, none⟩))).createdAt =
      dateToISOString aliceDoc.createdAt ∧
    (updateUser oneUser ⟨(genId 0).str, some "Alicia", none, none⟩).2.docs.find?
        (fun d => d._id = genId 0) =
      some { aliceDoc with name := (some "Alicia").getD aliceDoc.name,
                           email := (none : Option String).getD aliceDoc.email,
                           age := (none : Option Int).or aliceDoc.age } ∧
    (updateUser oneUser ⟨(genId 0).str, some "Alicia", none, none⟩).2.docs =
      setFirst oneUser.docs (genId 0) (fieldsOf ⟨(genId 0).str, some "Alicia", none, none⟩) :=
  C3_updateUser_frame oneUser ⟨(genId 0).str, some "Alicia", none, none⟩ (genId 0)
    aliceDoc (toUser (applySet aliceDoc (fieldsOf ⟨(genId 0).str, some "Alicia", none, none⟩)))
    (parse_genId 0) (by decide) (by decide)

/-- C4: with a fresh generated id and no email collision, `createUser`
inserts exactly one new record whose `createdAt` is the current time
`now`, re-reads it by the assigned id, and returns its codec translation;
and on the branch where the post-insert re-read comes back empty, the
code returns the propagated fatal `Error('Failed to create user')` — it
is neither retried nor masked as an "absent" result. -/
theorem C4_create_insert_reread (s : UsersCollection) (input : CreateUserInput)
    (now : Nat) (s1 : UsersCollection)
    (hemail : ∀ d ∈ s.docs, d.email ≠ input.email)
    (hfresh : ∀ d ∈ s.docs, d._id ≠ genId s.nextId) :
    (createUser s input now).2.docs = s.docs ++ [mkDoc (genId s.nextId) input now] ∧
    (mkDoc (genId s.nextId) input now).createdAt = now ∧
    (createUser s input now).1 = .ok (toUser (mkDoc (genId s.nextId) input now)) ∧
    finishCreate s1 none = (.error (.internal "Failed to create user"), s1) := by
  rw [createUser_eq s input now hemail hfresh]
  exact ⟨rfl, rfl, rfl, rfl⟩

/-- C4 witness: creating Alice in the empty collection. -/
theorem C4_create_insert_reread_witness :
    (createUser emptyUsers ⟨"Alice", "alice@example.com", some 25⟩ 7).2.docs =
      emptyUsers.docs ++ [mkDoc (genId 0) ⟨"Alice", "alice@example.com", some 25⟩ 7] ∧
    (mkDoc (genId 0) ⟨"Alice", "alice@example.com", some 25⟩ 7).createdAt = 7 ∧
    (createUser emptyUsers ⟨"Alice", "alice@example.com", some 25⟩ 7).1 =
      .ok (toUser (mkDoc (genId 0) ⟨"Alice", "alice@example.com", some 25⟩ 7)) ∧
    finishCreate oneUser none = (.error (.internal "Failed to create user"), oneUser) :=
  C4_create_insert_reread emptyUsers ⟨"Alice", "alice@example.com", some 25⟩ 7 oneUser
    (by simp [emptyUsers]) (by simp [emptyUsers])

/-- C7: with a fresh generated id and no email collision, `createUser`
succeeds and `getUserById` on the `id` of the returned User finds that
same User again, whose `name`, `email` and `age` equal the input's, and
whose stored creation time is `now` — in particular no earlier than the
time of the create call. -/
theorem C7_create_then_getById (s : UsersCollection) (input : CreateUserInput)
    (now : Nat)
    (hemail : ∀ d ∈ s.docs, d.email ≠ input.email)
    (hfresh : ∀ d ∈ s.docs, d._id ≠ genId s.nextId) :
    (createUser s input now).1 = .ok (toUser (mkDoc (genId s.nextId) input now)) ∧
    getUserById (createUser s input now).2 (toUser (mkDoc (genId s.nextId) input now)).id =
      some (toUser (mkDoc (genId s.nextId) input now)) ∧
    (toUser (mkDoc (genId s.nextId) input now)).name = input.name ∧
    (toUser (mkDoc (genId s.nextId) input now)).email = input.email ∧
    (toUser (mkDoc (genId s.nextId) input now)).age = input.age ∧
    now ≤ (mkDoc (genId s.nextId) input now).createdAt := by
  have hfind := findOne_append_fresh s.docs (mkDoc (genId s.nextId) input now)
    (genId s.nextId) (s.nextId + 1) rfl hfresh
  rw [createUser_eq s input now hemail hfresh]
  refine ⟨rfl, ?_, rfl, rfl, rfl, Nat.le_refl now⟩
  show getUserById ⟨s.docs ++ [mkDoc (genId s.nextId) input now], s.nextId + 1⟩
      (genId s.nextId).str = some (toUser (mkDoc (genId s.nextId) input now))
  simp [getUserById, parse_genId, hfind]

/-- C7 witness: create Alice, then read her back by the returned id. -/
theorem C7_create_then_getById_witness :
    (createUser emptyUsers ⟨"Alice", "alice@example.com", some 25⟩ 7).1 =
      .ok (toUser (mkDoc (genId 0) ⟨"Alice", "alice@example.com", some 25⟩ 7)) ∧
    getUserById (createUser emptyUsers ⟨"Alice", "alice@example.com", some 25⟩ 7).2
        (toUser (mkDoc (genId 0) ⟨"Alice", "alice@example.com", some 25⟩ 7)).id =
      some (toUser (mkDoc (genId 0) ⟨"Alice", "alice@example.com", some 25⟩ 7)) ∧
    (toUser (mkDoc (genId 0) ⟨"Alice", "alice@example.com", some 25⟩ 7)).name = "Alice" ∧
    (toUser (mkDoc (genId 0) ⟨"Alice", "alice@example.com", some 25⟩ 7)).email =
      "alice@example.com" ∧
    (toUser (mkDoc (genId 0) ⟨"Alice", "alice@example.com", some 25⟩ 7)).age = some 25 ∧
    7 ≤ (mkDoc (genId 0) ⟨"Alice", "alice@example.com", some 25⟩ 7).createdAt :=
  C7_create_then_getById emptyUsers ⟨"Alice", "alice@example.com", some 25⟩ 7
    (by simp [emptyUsers]) (by simp [emptyUsers])

/-- C8: the claim fails on the code. `createUser` builds the document
with the `age` property always present (`age: input.age`), and the
`MongoClient` is constructed with no options, so the driver's default
`ignoreUndefined: false` serializes the omitted age as BSON `null`. At
the concrete failing input — creating Bob with `age` omitted — the
persisted record carries the null sentinel: its `age` field is present
with value `null`, which is not the field-absent state and not a number,
and the driver deserializes it back as JavaScript `null`, contradicting
the claim (and the declared `age?: number` shape of `UserDocument`). -/
theorem C8_age_persisted_as_null :
    (serializeDoc (mkDoc (genId 0) ⟨"Bob", "bob@example.com", none⟩ 3)).age =
      BsonOptInt.null ∧
    BsonOptInt.null ≠ BsonOptInt.absent ∧
    (∀ n : Int, BsonOptInt.null ≠ BsonOptInt.value n) ∧
    deserializeAge
        (serializeDoc (mkDoc (genId 0) ⟨"Bob", "bob@example.com", none⟩ 3)).age =
      JsOptInt.null :=
  ⟨rfl, by decide, fun n h => BsonOptInt.noConfusion h, rfl⟩

end GraphqlTs
